import Mathlib

/-!
Verification of the remote tablet bootstrap client
(`src/kudu/tserver/remote_bootstrap_client.cc`).

The development shallowly embeds the client logic: protobuf messages become
structures, the chunked fetch loop becomes a fuel-indexed recursion over a
stream of RPC outcomes, and the orchestration becomes a function that records
the trace of steps it performed.  External collaborators that are not part of
the source under `src/` (the `kudu::Status` string helpers from `util/status`,
the CRC32C routine from `util/crc`, the RPC transport) are modelled from the
specification, as noted on each definition.
-/

set_option maxRecDepth 10000

/-! ## Status

Modelled from the spec: `kudu::Status` (from `util/status`, not part of the
sources under `src/`) carries an error kind and a message; the two-argument
constructors join message and detail with a colon, `CloneAndPrepend` places a
new message in front, `CloneAndAppend` places extra detail behind, and
`ToString` renders the kind followed by the message. -/

inductive StatusCode
  | Ok
  | NotFound
  | InvalidArgument
  | IllegalState
  | Corruption
  | TimedOut
  | IOError
  | RemoteError
  | NetworkError
deriving DecidableEq, Repr

structure Status where
  code : StatusCode
  msg : String
deriving DecidableEq, Repr

def StatusCode.codeString : StatusCode → String
  | .Ok => "OK"
  | .NotFound => "NotFound"
  | .InvalidArgument => "InvalidArgument"
  | .IllegalState => "IllegalState"
  | .Corruption => "Corruption"
  | .TimedOut => "TimedOut"
  | .IOError => "IOError"
  | .RemoteError => "RemoteError"
  | .NetworkError => "NetworkError"

def Status.OK : Status := ⟨StatusCode.Ok, ""⟩

def Status.mkNotFound (m : String) : Status := ⟨StatusCode.NotFound, m⟩

def Status.mkInvalidArgument (m d : String) : Status :=
  ⟨StatusCode.InvalidArgument, m ++ ": " ++ d⟩

def Status.mkIllegalState (m d : String) : Status :=
  ⟨StatusCode.IllegalState, m ++ ": " ++ d⟩

def Status.mkCorruption (m : String) : Status := ⟨StatusCode.Corruption, m⟩

def Status.mkTimedOut (m : String) : Status := ⟨StatusCode.TimedOut, m⟩

def Status.cloneAndPrepend (s : Status) (m : String) : Status :=
  ⟨s.code, m ++ ": " ++ s.msg⟩

def Status.cloneAndAppend (s : Status) (m : String) : Status :=
  ⟨s.code, s.msg ++ ": " ++ m⟩

def Status.toString (s : Status) : String :=
  if s.code = StatusCode.Ok then "OK" else s.code.codeString ++ ": " ++ s.msg

def Status.ok (s : Status) : Bool := s.code = StatusCode.Ok

/-! ## CRC32C

Modelled from the spec: `crc::Crc32c` (from `util/crc`, not part of the
sources under `src/`) is the Castagnoli CRC-32 over the chunk's bytes:
initial value `0xFFFFFFFF`, reflected polynomial `0x82F63B78`, final
complement.  Bytes are naturals below 256; the running register is a natural
below `2^32`. -/

def crc32cBitStep (crc : Nat) : Nat :=
  if crc % 2 = 1 then Nat.xor (crc / 2) 0x82F63B78 else crc / 2

def crc32cRounds : Nat → Nat → Nat
  | 0, crc => crc
  | n + 1, crc => crc32cRounds n (crc32cBitStep crc)

def crc32cUpdate : Nat → List Nat → Nat
  | crc, [] => crc
  | crc, b :: rest => crc32cUpdate (crc32cRounds 8 (Nat.xor crc (b % 256))) rest

def crc32c (data : List Nat) : Nat :=
  Nat.xor (crc32cUpdate 0xFFFFFFFF data) 0xFFFFFFFF

/-! ## The chunk fetcher (`DownloadFile` / `VerifyData`)

Embeds `RemoteBootstrapClient::VerifyData` and the loop of
`RemoteBootstrapClient::DownloadFile`.  A `DataChunkPB` mirrors the wire
message; the remote side is a stream of `RpcOutcome`s (one per `FetchData`
call), where `fail` stands for the RPC itself failing (its status is taken
after remote-error unwinding, which only rewrites the message).  The loop is
given fuel; `none` means the fuel ran out with the loop still running.  The
sink is the list of bytes appended so far, and the accepted chunks are
recorded alongside it. -/

structure DataChunkPB where
  offset : Nat
  data : List Nat
  crc32 : Nat
  total_data_length : Nat
deriving DecidableEq, Repr

def VerifyData (offset : Nat) (chunk : DataChunkPB) : Status :=
  if offset ≠ chunk.offset then
    Status.mkInvalidArgument "Offset did not match what was asked for"
      (toString offset ++ " vs " ++ toString chunk.offset)
  else if crc32c chunk.data ≠ chunk.crc32 then
    Status.mkCorruption
      ("CRC32 does not match at offset " ++ toString offset ++ " size " ++
        toString chunk.data.length ++ ": " ++ toString (crc32c chunk.data) ++
        " vs " ++ toString chunk.crc32)
  else
    Status.OK

inductive RpcOutcome
  | reply (chunk : DataChunkPB)
  | fail (s : Status)

structure FetchState where
  offset : Nat
  sink : List Nat
  accepted : List DataChunkPB
deriving DecidableEq, Repr

def downloadFileAux : Nat → (Nat → RpcOutcome) → FetchState →
    Option (Status × FetchState)
  | 0, _, _ => none
  | fuel + 1, fetch, st =>
    match fetch 0 with
    | RpcOutcome.fail s =>
      some (s.cloneAndPrepend "Unable to fetch data from remote", st)
    | RpcOutcome.reply c =>
      if (VerifyData st.offset c).code = StatusCode.Ok then
        let st' : FetchState :=
          ⟨st.offset + c.data.length, st.sink ++ c.data, st.accepted ++ [c]⟩
        if st.offset + c.data.length = c.total_data_length then
          some (Status.OK, st')
        else
          downloadFileAux fuel (fun n => fetch (n + 1)) st'
      else
        some ((VerifyData st.offset c).cloneAndPrepend
                "Error validating data item", st)

def DownloadFile (fetch : Nat → RpcOutcome) (fuel : Nat) :
    Option (Status × FetchState) :=
  downloadFileAux fuel fetch ⟨0, [], []⟩

/-- Serve the chunks of a list in order; once exhausted, the transport fails. -/
def listFetch (cs : List DataChunkPB) : Nat → RpcOutcome := fun n =>
  match cs.get? n with
  | some c => RpcOutcome.reply c
  | none => RpcOutcome.fail (Status.mkTimedOut "FetchData RPC timed out")

/-! ## Superblock model and `DownloadBlocks`

Embeds the protobuf messages walked by
`RemoteBootstrapClient::DownloadBlocks` and
`RemoteBootstrapClient::DownloadAndRewriteBlock`.  Each message keeps its
block reference(s) plus an `other` field abstracting all remaining scalar
fields, which the rewrite must leave untouched.  Local block allocation
(`FsManager::CreateNewBlock`, not part of the sources under `src/`) is
modelled as a supply of fresh identifiers `first, first+1, ...`; the download
of each block's bytes is the chunk fetcher above and is taken to succeed on
the successful-completion path that the claims describe. -/

structure BlockIdPB where
  id : Nat
deriving DecidableEq, Repr

structure ColumnDataPB where
  block : BlockIdPB
  other : Nat
deriving DecidableEq, Repr

structure DeltaDataPB where
  block : BlockIdPB
  other : Nat
deriving DecidableEq, Repr

structure RowSetDataPB where
  columns : List ColumnDataPB
  redo_deltas : List DeltaDataPB
  undo_deltas : List DeltaDataPB
  bloom_block : Option BlockIdPB
  adhoc_index_block : Option BlockIdPB
  other : Nat
deriving DecidableEq, Repr

inductive RemoteBootstrapStatePB
  | REMOTE_BOOTSTRAP_UNKNOWN
  | REMOTE_BOOTSTRAP_COPYING
  | REMOTE_BOOTSTRAP_DONE
deriving DecidableEq, Repr

structure TabletSuperBlockPB where
  rowsets : List RowSetDataPB
  orphaned_blocks : List BlockIdPB
  remote_bootstrap_state : RemoteBootstrapStatePB
  other : Nat
deriving DecidableEq, Repr

/-- The `num_blocks` count exactly as the first loop of `DownloadBlocks`
accumulates it. -/
def numBlocksCode (sb : TabletSuperBlockPB) : Nat :=
  sb.rowsets.foldl
    (fun acc rs =>
      acc + rs.columns.length + rs.redo_deltas.length + rs.undo_deltas.length +
        (if rs.bloom_block.isSome then 1 else 0) +
        (if rs.adhoc_index_block.isSome then 1 else 0))
    0

/-- `DownloadAndRewriteBlock`: downloads the block (elided on the success
path), overwrites the reference with the freshly created local block id, and
increments the block counter.  State is `(block_count, next fresh id)`. -/
def downloadAndRewriteBlock (_b : BlockIdPB) (bc fresh : Nat) :
    BlockIdPB × Nat × Nat :=
  (⟨fresh⟩, bc + 1, fresh + 1)

def rewriteColumns : List ColumnDataPB → Nat → Nat →
    List ColumnDataPB × Nat × Nat
  | [], bc, fresh => ([], bc, fresh)
  | c :: rest, bc, fresh =>
    let r := downloadAndRewriteBlock c.block bc fresh
    let t := rewriteColumns rest r.2.1 r.2.2
    ({ c with block := r.1 } :: t.1, t.2)

def rewriteDeltas : List DeltaDataPB → Nat → Nat →
    List DeltaDataPB × Nat × Nat
  | [], bc, fresh => ([], bc, fresh)
  | d :: rest, bc, fresh =>
    let r := downloadAndRewriteBlock d.block bc fresh
    let t := rewriteDeltas rest r.2.1 r.2.2
    ({ d with block := r.1 } :: t.1, t.2)

def rewriteOptBlock : Option BlockIdPB → Nat → Nat →
    Option BlockIdPB × Nat × Nat
  | none, bc, fresh => (none, bc, fresh)
  | some b, bc, fresh =>
    let r := downloadAndRewriteBlock b bc fresh
    (some r.1, r.2)

def rewriteRowSet (rs : RowSetDataPB) (bc fresh : Nat) :
    RowSetDataPB × Nat × Nat :=
  let c := rewriteColumns rs.columns bc fresh
  let rd := rewriteDeltas rs.redo_deltas c.2.1 c.2.2
  let ud := rewriteDeltas rs.undo_deltas rd.2.1 rd.2.2
  let bl := rewriteOptBlock rs.bloom_block ud.2.1 ud.2.2
  let ah := rewriteOptBlock rs.adhoc_index_block bl.2.1 bl.2.2
  ({ rs with columns := c.1, redo_deltas := rd.1, undo_deltas := ud.1,
             bloom_block := bl.1, adhoc_index_block := ah.1 }, ah.2)

def rewriteRowSets : List RowSetDataPB → Nat → Nat →
    List RowSetDataPB × Nat × Nat
  | [], bc, fresh => ([], bc, fresh)
  | rs :: rest, bc, fresh =>
    let r := rewriteRowSet rs bc fresh
    let t := rewriteRowSets rest r.2.1 r.2.2
    (r.1 :: t.1, t.2)

/-- `DownloadBlocks` on its success path: deep-copy the remote superblock,
rewrite every block reference in traversal order with the next fresh local
id, clear `orphaned_blocks`, and report the final `block_count`. -/
def DownloadBlocks (sb : TabletSuperBlockPB) (firstFresh : Nat) :
    TabletSuperBlockPB × Nat :=
  let r := rewriteRowSets sb.rowsets 0 firstFresh
  ({ sb with rowsets := r.1, orphaned_blocks := [] }, r.2.1)

/-! Spec-side descriptions for `DownloadBlocks` (written from the spec's
words, to be compared with the source embedding above). -/

/-- The spec's block count: Σ over rowsets of
`columns + redo_deltas + undo_deltas + has_bloom + has_adhoc_index`. -/
def numBlocksSpec (sb : TabletSuperBlockPB) : Nat :=
  (sb.rowsets.map
      (fun rs =>
        rs.columns.length + rs.redo_deltas.length + rs.undo_deltas.length +
          (if rs.bloom_block.isSome then 1 else 0) +
          (if rs.adhoc_index_block.isSome then 1 else 0))).sum

/-- The block references of one rowset in the spec's traversal order:
columns, redo deltas, undo deltas, bloom block, ad-hoc index block. -/
def rowSetBlockRefs (rs : RowSetDataPB) : List BlockIdPB :=
  rs.columns.map (fun c => c.block) ++ rs.redo_deltas.map (fun d => d.block) ++
    rs.undo_deltas.map (fun d => d.block) ++ rs.bloom_block.toList ++
    rs.adhoc_index_block.toList

def blockRefs (sb : TabletSuperBlockPB) : List BlockIdPB :=
  (sb.rowsets.map rowSetBlockRefs).flatten

/-- The consecutive fresh block ids `start, start+1, ..., start+len-1`. -/
def freshIds : Nat → Nat → List BlockIdPB
  | _, 0 => []
  | start, len + 1 => ⟨start⟩ :: freshIds (start + 1) len

/-- Erase every block reference (to a dummy id), leaving all other fields:
two superblocks with the same erasure differ at most in block references. -/
def eraseColumn (c : ColumnDataPB) : ColumnDataPB := { c with block := ⟨0⟩ }

def eraseDelta (d : DeltaDataPB) : DeltaDataPB := { d with block := ⟨0⟩ }

def eraseRowSet (rs : RowSetDataPB) : RowSetDataPB :=
  { rs with columns := rs.columns.map eraseColumn,
            redo_deltas := rs.redo_deltas.map eraseDelta,
            undo_deltas := rs.undo_deltas.map eraseDelta,
            bloom_block := rs.bloom_block.map (fun _ => ⟨0⟩),
            adhoc_index_block := rs.adhoc_index_block.map (fun _ => ⟨0⟩) }

def eraseBlockRefs (sb : TabletSuperBlockPB) : TabletSuperBlockPB :=
  { sb with rowsets := sb.rowsets.map eraseRowSet }

/-! ## Consensus configuration and `ExtractLeaderFromConfig` -/

structure HostPortPB where
  host : String
  port : Nat
deriving DecidableEq, Repr

structure RaftPeerPB where
  permanent_uuid : String
  last_known_addr : Option HostPortPB
deriving DecidableEq, Repr

structure RaftConfigPB where
  peers : List RaftPeerPB
deriving DecidableEq, Repr

structure ConsensusStatePB where
  leader_uuid : Option String
  config : RaftConfigPB
  current_term : Nat
deriving DecidableEq, Repr

/-- The loop of `ExtractLeaderFromConfig`: for each peer, first break out
(to the `NotFound` return) when the leader uuid is absent or empty, then
return the peer whose permanent uuid matches; falling off the end returns
`NotFound`. -/
def extractLeaderAux (lead : Option String) :
    List RaftPeerPB → Except Status RaftPeerPB
  | [] => Except.error (Status.mkNotFound "No leader found in config")
  | p :: rest =>
    match lead with
    | none => Except.error (Status.mkNotFound "No leader found in config")
    | some u =>
      if u = "" then Except.error (Status.mkNotFound "No leader found in config")
      else if p.permanent_uuid = u then Except.ok p
      else extractLeaderAux lead rest

def ExtractLeaderFromConfig (cstate : ConsensusStatePB) :
    Except Status RaftPeerPB :=
  extractLeaderAux cstate.leader_uuid cstate.config.peers

/-! ## Remote error unwinding -/

/-- The application status carried inside the remote-bootstrap error
extension; `statusFromPB` is modelled from the spec ("translate its status-PB
into a local status"), `wire_protocol` not being part of the sources under
`src/`. -/
structure AppStatusPB where
  code : StatusCode
  message : String
deriving DecidableEq, Repr

def statusFromPB (pb : AppStatusPB) : Status := ⟨pb.code, pb.message⟩

/-- The remote-bootstrap error extension: its `code` is kept as the name the
generated `Code_Name` function renders it to. -/
structure RemoteBootstrapErrorPB where
  code_name : String
  status : AppStatusPB
deriving DecidableEq, Repr

/-- The generic RPC error envelope; the optional extension models
`HasExtension`/`GetExtension`, and `short_debug` its `ShortDebugString`. -/
structure ErrorStatusPB where
  remote_bootstrap_error_ext : Option RemoteBootstrapErrorPB
  short_debug : String
deriving DecidableEq, Repr

def ExtractRemoteError (remote_error : ErrorStatusPB) : Status :=
  match remote_error.remote_bootstrap_error_ext with
  | some err =>
    (statusFromPB err.status).cloneAndPrepend
      ("Received error code " ++ err.code_name ++ " from remote service")
  | none =>
    Status.mkInvalidArgument "Unable to decode remote bootstrap RPC error message"
      remote_error.short_debug

/-- `UnwindRemoteError`; the controller's stored `error_response()` is passed
directly as `error_response`. -/
def UnwindRemoteError (status : Status) (error_response : ErrorStatusPB) :
    Status :=
  if status.code ≠ StatusCode.RemoteError then status
  else status.cloneAndAppend (ExtractRemoteError error_response).toString

/-! ## Session state machine and `BeginRemoteBootstrapSession` -/

inductive SessionState
  | kNoSession
  | kSessionStarted
deriving DecidableEq, Repr

structure BeginRemoteBootstrapSessionResponsePB where
  session_id : String
  session_idle_timeout_millis : Nat
  superblock : TabletSuperBlockPB
  wal_segment_seqnos : List Nat
  initial_committed_cstate : ConsensusStatePB
deriving DecidableEq, Repr

structure RemoteBootstrapClientState where
  state : SessionState
  tablet_id : String
  session_id : String
  session_idle_timeout_millis : Nat
  superblock : Option TabletSuperBlockPB
  wal_seqnos : List Nat
  committed_cstate : Option ConsensusStatePB
deriving DecidableEq, Repr

/-- `BeginRemoteBootstrapSession`.  The caller must have
`cl.state = kNoSession` (the source `CHECK`s it and aborts otherwise).  Host
and socket address resolution and the RPC exchange are external; the RPC's
outcome (after remote-error unwinding, which only rewrites the message) is
the `rpc` parameter, consulted only once the leader has been located and its
address found present. -/
def BeginRemoteBootstrapSession (cl : RemoteBootstrapClientState)
    (tablet_id : String) (cstate : ConsensusStatePB)
    (rpc : Except Status BeginRemoteBootstrapSessionResponsePB) :
    Status × RemoteBootstrapClientState :=
  let cl1 := { cl with tablet_id := tablet_id }
  match ExtractLeaderFromConfig cstate with
  | Except.error s =>
    (s.cloneAndPrepend "Cannot find leader tablet in config to remotely bootstrap from",
     cl1)
  | Except.ok leader =>
    match leader.last_known_addr with
    | none =>
      (Status.mkInvalidArgument "Unknown address for config leader"
         leader.permanent_uuid, cl1)
    | some _ =>
      match rpc with
      | Except.error s =>
        (s.cloneAndPrepend "Unable to begin remote bootstrap session", cl1)
      | Except.ok resp =>
        if resp.superblock.remote_bootstrap_state ≠
            RemoteBootstrapStatePB.REMOTE_BOOTSTRAP_DONE then
          (Status.mkIllegalState
             "Leader of config is currently remotely bootstrapping itself!"
             "superblock", cl1)
        else
          (Status.OK,
           { cl1 with
               state := SessionState.kSessionStarted,
               session_id := resp.session_id,
               session_idle_timeout_millis := resp.session_idle_timeout_millis,
               superblock := some resp.superblock,
               wal_seqnos := resp.wal_segment_seqnos,
               committed_cstate := some resp.initial_committed_cstate })

/-- The `CHECK_EQ(kSessionStarted, state_)` guard at the entry of
`DownloadWALs`, `DownloadBlocks` and `EndRemoteBootstrapSession`: any of them
aborts unless the session has started. -/
def checkSessionStarted (cl : RemoteBootstrapClientState) : Bool :=
  cl.state = SessionState.kSessionStarted

/-! ## The orchestrator `RunRemoteBootstrap`

The orchestrator's steps act on external state (files, blocks, the metadata
store); the embedding parameterises each step by the status it returns and
records the trace of steps actually invoked, in order.  The tablet metadata's
old superblock is replaced only by the `replaceSuperBlock` step, so its
absence from the trace means the pre-existing metadata is unchanged. -/

inductive BootstrapStep
  | beginSession
  | downloadWALs
  | downloadBlocks
  | writeConsensusMetadata
  | replaceSuperBlock
  | endSession
deriving DecidableEq, Repr

structure StepOutcomes where
  beginSession : Status
  downloadWALs : Status
  downloadBlocks : Status
  writeConsensusMetadata : Status
  replaceSuperBlock : Status
  endSession : Status
deriving DecidableEq, Repr

/-- `RunRemoteBootstrap` with `RETURN_NOT_OK` on each step, returning the
final status and the trace of invoked steps. -/
def RunRemoteBootstrap (o : StepOutcomes) : Status × List BootstrapStep :=
  if ¬ o.beginSession.ok then (o.beginSession, [BootstrapStep.beginSession])
  else if ¬ o.downloadWALs.ok then
    (o.downloadWALs, [BootstrapStep.beginSession, BootstrapStep.downloadWALs])
  else if ¬ o.downloadBlocks.ok then
    (o.downloadBlocks,
     [BootstrapStep.beginSession, BootstrapStep.downloadWALs,
      BootstrapStep.downloadBlocks])
  else if ¬ o.writeConsensusMetadata.ok then
    (o.writeConsensusMetadata,
     [BootstrapStep.beginSession, BootstrapStep.downloadWALs,
      BootstrapStep.downloadBlocks, BootstrapStep.writeConsensusMetadata])
  else if ¬ o.replaceSuperBlock.ok then
    (o.replaceSuperBlock,
     [BootstrapStep.beginSession, BootstrapStep.downloadWALs,
      BootstrapStep.downloadBlocks, BootstrapStep.writeConsensusMetadata,
      BootstrapStep.replaceSuperBlock])
  else if ¬ o.endSession.ok then
    (o.endSession,
     [BootstrapStep.beginSession, BootstrapStep.downloadWALs,
      BootstrapStep.downloadBlocks, BootstrapStep.writeConsensusMetadata,
      BootstrapStep.replaceSuperBlock, BootstrapStep.endSession])
  else
    (Status.OK,
     [BootstrapStep.beginSession, BootstrapStep.downloadWALs,
      BootstrapStep.downloadBlocks, BootstrapStep.writeConsensusMetadata,
      BootstrapStep.replaceSuperBlock, BootstrapStep.endSession])

/-- The first failure among the four steps preceding the superblock swap. -/
def firstFailureBeforeSwap (o : StepOutcomes) : Status :=
  if ¬ o.beginSession.ok then o.beginSession
  else if ¬ o.downloadWALs.ok then o.downloadWALs
  else if ¬ o.downloadBlocks.ok then o.downloadBlocks
  else o.writeConsensusMetadata

/-! ## Lemmas about the chunk fetcher -/

/-- Sum of the data lengths of a list of chunks. -/
def sumLens (cs : List DataChunkPB) : Nat := (cs.map (fun c => c.data.length)).sum

/-- Concatenation of the data of a list of chunks, in order. -/
def chunkData (cs : List DataChunkPB) : List Nat :=
  (cs.map (fun c => c.data)).flatten

/-- Each chunk sits at the running offset (starting from `off`) and carries a
matching CRC32C. -/
def goodChunksFrom : Nat → List DataChunkPB → Prop
  | _, [] => True
  | off, c :: rest =>
    c.offset = off ∧ crc32c c.data = c.crc32 ∧
      goodChunksFrom (off + c.data.length) rest

theorem verifyData_ok_iff (off : Nat) (c : DataChunkPB) :
    (VerifyData off c).code = StatusCode.Ok ↔
      c.offset = off ∧ crc32c c.data = c.crc32 := by
  by_cases h1 : off = c.offset
  · by_cases h2 : crc32c c.data = c.crc32
    · simp [VerifyData, h1, h2, Status.OK]
    · simp [VerifyData, h1, h2, Status.mkCorruption]
  · simp [VerifyData, h1, Status.mkInvalidArgument]
    intro h
    exact absurd h.symm h1

theorem sumLens_append (xs ys : List DataChunkPB) :
    sumLens (xs ++ ys) = sumLens xs + sumLens ys := by
  simp [sumLens]

theorem chunkData_append (xs ys : List DataChunkPB) :
    chunkData (xs ++ ys) = chunkData xs ++ chunkData ys := by
  simp [chunkData]

theorem goodChunksFrom_append (acc : List DataChunkPB) (n : Nat)
    (c : DataChunkPB) (hg : goodChunksFrom n acc)
    (hoff : c.offset = n + sumLens acc) (hcrc : crc32c c.data = c.crc32) :
    goodChunksFrom n (acc ++ [c]) := by
  induction acc generalizing n with
  | nil =>
    simp [sumLens] at hoff
    exact ⟨hoff, hcrc, trivial⟩
  | cons a rest ih =>
    obtain ⟨h1, h2, h3⟩ := hg
    refine ⟨h1, h2, ih (n + a.data.length) h3 ?_⟩
    rw [hoff, sumLens]
    simp [sumLens, Nat.add_assoc]

/-- The invariant the fetch loop maintains: the accepted chunks sit at
consecutive offsets from 0 with matching CRCs, the current offset is the sum
of their lengths, and the sink is exactly their concatenated data. -/
def fetchInv (st : FetchState) : Prop :=
  goodChunksFrom 0 st.accepted ∧ st.offset = sumLens st.accepted ∧
    st.sink = chunkData st.accepted

theorem downloadFileAux_inv (fuel : Nat) :
    ∀ (fetch : Nat → RpcOutcome) (st : FetchState) (s : Status)
      (st' : FetchState), fetchInv st →
      downloadFileAux fuel fetch st = some (s, st') → fetchInv st' := by
  induction fuel with
  | zero => intro fetch st s st' _ h; simp [downloadFileAux] at h
  | succ n ih =>
    intro fetch st s st' hinv h
    cases hf : fetch 0 with
    | fail s0 =>
      simp [downloadFileAux, hf] at h
      exact h.2 ▸ hinv
    | reply c =>
      by_cases hv : (VerifyData st.offset c).code = StatusCode.Ok
      · obtain ⟨hoff, hcrc⟩ := (verifyData_ok_iff st.offset c).mp hv
        have hinv' :
            fetchInv ⟨st.offset + c.data.length, st.sink ++ c.data,
              st.accepted ++ [c]⟩ := by
          obtain ⟨i1, i2, i3⟩ := hinv
          refine ⟨goodChunksFrom_append st.accepted 0 c i1 (by simpa [i2] using hoff) hcrc,
                  ?_, ?_⟩
          · simp [sumLens_append, i2, sumLens]
          · simp [chunkData_append, i3, chunkData]
        by_cases hd : st.offset + c.data.length = c.total_data_length
        · simp [downloadFileAux, hf, hv, hd] at h
          rw [hd] at hinv'
          exact h.2 ▸ hinv'
        · simp [downloadFileAux, hf, hv, hd] at h
          exact ih _ _ _ _ hinv' h
      · simp [downloadFileAux, hf, hv] at h
        exact h.2 ▸ hinv

/-- A list of chunks serving one logical item of total length `T` from the
running offset: correct offsets, matching CRCs, the advertised total on every
chunk, and positive sizes. -/
def serveChunks (T : Nat) : Nat → List DataChunkPB → Prop
  | _, [] => True
  | off, c :: rest =>
    c.offset = off ∧ c.crc32 = crc32c c.data ∧ c.total_data_length = T ∧
      0 < c.data.length ∧ serveChunks T (off + c.data.length) rest

theorem listFetch_shift (c : DataChunkPB) (rest : List DataChunkPB) :
    (fun n => listFetch (c :: rest) (n + 1)) = listFetch rest := by
  funext n
  simp [listFetch]

theorem serveChunks_sumLens_pos (T off : Nat) (cs : List DataChunkPB)
    (hne : cs ≠ []) (hs : serveChunks T off cs) : 0 < sumLens cs := by
  cases cs with
  | nil => exact absurd rfl hne
  | cons c rest =>
    obtain ⟨_, _, _, hpos, _⟩ := hs
    have : 0 < c.data.length + sumLens rest := Nat.lt_of_lt_of_le hpos (Nat.le_add_right _ _)
    simpa [sumLens] using this

theorem downloadFileAux_serves (cs : List DataChunkPB) :
    ∀ (st : FetchState), cs ≠ [] → serveChunks (st.offset + sumLens cs) st.offset cs →
      downloadFileAux cs.length (listFetch cs) st =
        some (Status.OK,
          ⟨st.offset + sumLens cs, st.sink ++ chunkData cs, st.accepted ++ cs⟩) := by
  induction cs with
  | nil => intro st hne _; exact absurd rfl hne
  | cons c rest ih =>
    intro st _ hs
    obtain ⟨hoff, hcrc, htot, _, hrest⟩ := hs
    have hf : listFetch (c :: rest) 0 = RpcOutcome.reply c := by simp [listFetch]
    have hv : (VerifyData st.offset c).code = StatusCode.Ok :=
      (verifyData_ok_iff st.offset c).mpr ⟨hoff, hcrc.symm⟩
    by_cases hrne : rest = []
    · subst hrne
      have hd : st.offset + c.data.length = c.total_data_length := by
        rw [htot]
        simp [sumLens]
      simp [downloadFileAux, hf, hv, hd, sumLens, chunkData]
    · have hpos : 0 < sumLens rest :=
        serveChunks_sumLens_pos _ _ rest hrne hrest
      have hsl : sumLens (c :: rest) = c.data.length + sumLens rest := by
        simp [sumLens]
      have hd : st.offset + c.data.length ≠ c.total_data_length := by
        omega
      have step :
          downloadFileAux (c :: rest).length (listFetch (c :: rest)) st =
            downloadFileAux rest.length (fun n => listFetch (c :: rest) (n + 1))
              ⟨st.offset + c.data.length, st.sink ++ c.data,
                st.accepted ++ [c]⟩ := by
        simp [downloadFileAux, hf, hv, hd]
      rw [step, listFetch_shift]
      have hrest' :
          serveChunks ((st.offset + c.data.length) + sumLens rest)
            (st.offset + c.data.length) rest := by
        have he : st.offset + sumLens (c :: rest) =
            (st.offset + c.data.length) + sumLens rest := by
          omega
        exact he ▸ hrest
      have hih := ih ⟨st.offset + c.data.length, st.sink ++ c.data,
          st.accepted ++ [c]⟩ hrne hrest'
      rw [hih]
      simp [sumLens, chunkData, Nat.add_assoc]

/-- A stream that forever replies a valid zero-length chunk at offset `off`
whose advertised total lies strictly beyond `off`. -/
def alwaysZeroChunk (fetch : Nat → RpcOutcome) (off : Nat) : Prop :=
  ∀ n, ∃ c, fetch n = RpcOutcome.reply c ∧ c.offset = off ∧ c.data = [] ∧
    c.crc32 = crc32c [] ∧ off < c.total_data_length

theorem zeroChunk_loop_forever (fuel : Nat) :
    ∀ (fetch : Nat → RpcOutcome) (st : FetchState),
      alwaysZeroChunk fetch st.offset →
      downloadFileAux fuel fetch st = none := by
  induction fuel with
  | zero => intro fetch st _; simp [downloadFileAux]
  | succ n ih =>
    intro fetch st hz
    obtain ⟨c, hf, hoff, hdata, hcrc, htot⟩ := hz 0
    have hv : (VerifyData st.offset c).code = StatusCode.Ok :=
      (verifyData_ok_iff st.offset c).mpr ⟨hoff, by rw [hdata, hcrc]⟩
    have hd : st.offset + c.data.length ≠ c.total_data_length := by
      rw [hdata]
      simpa using Nat.ne_of_lt htot
    have step :
        downloadFileAux (n + 1) fetch st =
          downloadFileAux n (fun m => fetch (m + 1))
            ⟨st.offset + c.data.length, st.sink ++ c.data,
              st.accepted ++ [c]⟩ := by
      simp [downloadFileAux, hf, hv, hd]
    rw [step]
    apply ih
    intro m
    obtain ⟨c', hf', hoff', hdata', hcrc', htot'⟩ := hz (m + 1)
    exact ⟨c', hf', by simp [hdata, hoff'], hdata', hcrc', by simpa [hdata] using htot'⟩

/-! ## Lemmas about `DownloadBlocks` -/

def rowSetNumBlocks (rs : RowSetDataPB) : Nat :=
  rs.columns.length + rs.redo_deltas.length + rs.undo_deltas.length +
    (if rs.bloom_block.isSome then 1 else 0) +
    (if rs.adhoc_index_block.isSome then 1 else 0)

theorem freshIds_append (s a b : Nat) :
    freshIds s a ++ freshIds (s + a) b = freshIds s (a + b) := by
  induction a generalizing s with
  | zero => simp [freshIds]
  | succ n ih =>
    have he : s + (n + 1) = (s + 1) + n := by omega
    have hb : n + 1 + b = (n + b) + 1 := by omega
    simp only [freshIds, List.cons_append, he, hb]
    rw [ih (s + 1)]

theorem rewriteColumns_spec (cs : List ColumnDataPB) :
    ∀ (bc fresh : Nat),
      (rewriteColumns cs bc fresh).2.1 = bc + cs.length ∧
      (rewriteColumns cs bc fresh).2.2 = fresh + cs.length ∧
      (rewriteColumns cs bc fresh).1.map (fun c => c.block) =
        freshIds fresh cs.length ∧
      (rewriteColumns cs bc fresh).1.map eraseColumn = cs.map eraseColumn := by
  induction cs with
  | nil => intro bc fresh; simp [rewriteColumns, freshIds]
  | cons c rest ih =>
    intro bc fresh
    obtain ⟨h1, h2, h3, h4⟩ := ih (bc + 1) (fresh + 1)
    refine ⟨?_, ?_, ?_, ?_⟩
    · simp [rewriteColumns, downloadAndRewriteBlock, h1]; omega
    · simp [rewriteColumns, downloadAndRewriteBlock, h2]; omega
    · simp [rewriteColumns, downloadAndRewriteBlock, freshIds, h3]
    · simp [rewriteColumns, downloadAndRewriteBlock, h4, eraseColumn]

theorem rewriteDeltas_spec (ds : List DeltaDataPB) :
    ∀ (bc fresh : Nat),
      (rewriteDeltas ds bc fresh).2.1 = bc + ds.length ∧
      (rewriteDeltas ds bc fresh).2.2 = fresh + ds.length ∧
      (rewriteDeltas ds bc fresh).1.map (fun d => d.block) =
        freshIds fresh ds.length ∧
      (rewriteDeltas ds bc fresh).1.map eraseDelta = ds.map eraseDelta := by
  induction ds with
  | nil => intro bc fresh; simp [rewriteDeltas, freshIds]
  | cons d rest ih =>
    intro bc fresh
    obtain ⟨h1, h2, h3, h4⟩ := ih (bc + 1) (fresh + 1)
    refine ⟨?_, ?_, ?_, ?_⟩
    · simp [rewriteDeltas, downloadAndRewriteBlock, h1]; omega
    · simp [rewriteDeltas, downloadAndRewriteBlock, h2]; omega
    · simp [rewriteDeltas, downloadAndRewriteBlock, freshIds, h3]
    · simp [rewriteDeltas, downloadAndRewriteBlock, h4, eraseDelta]

theorem rewriteOptBlock_spec (o : Option BlockIdPB) (bc fresh : Nat) :
    (rewriteOptBlock o bc fresh).2.1 = bc + (if o.isSome then 1 else 0) ∧
    (rewriteOptBlock o bc fresh).2.2 = fresh + (if o.isSome then 1 else 0) ∧
    (rewriteOptBlock o bc fresh).1.toList =
      freshIds fresh (if o.isSome then 1 else 0) ∧
    (rewriteOptBlock o bc fresh).1.isSome = o.isSome := by
  cases o with
  | none => simp [rewriteOptBlock, freshIds]
  | some b => simp [rewriteOptBlock, downloadAndRewriteBlock, freshIds]

theorem optMap_const_of_isSome_eq (o p : Option BlockIdPB)
    (h : o.isSome = p.isSome) :
    o.map (fun _ => (⟨0⟩ : BlockIdPB)) = p.map (fun _ => (⟨0⟩ : BlockIdPB)) := by
  cases o <;> cases p <;> simp_all

theorem rewriteRowSet_spec (rs : RowSetDataPB) (bc fresh : Nat) :
    (rewriteRowSet rs bc fresh).2.1 = bc + rowSetNumBlocks rs ∧
    (rewriteRowSet rs bc fresh).2.2 = fresh + rowSetNumBlocks rs ∧
    rowSetBlockRefs (rewriteRowSet rs bc fresh).1 =
      freshIds fresh (rowSetNumBlocks rs) ∧
    eraseRowSet (rewriteRowSet rs bc fresh).1 = eraseRowSet rs := by
  rcases hc : rewriteColumns rs.columns bc fresh with ⟨C, bc1, f1⟩
  rcases hrd : rewriteDeltas rs.redo_deltas bc1 f1 with ⟨RD, bc2, f2⟩
  rcases hud : rewriteDeltas rs.undo_deltas bc2 f2 with ⟨UD, bc3, f3⟩
  rcases hbl : rewriteOptBlock rs.bloom_block bc3 f3 with ⟨BL, bc4, f4⟩
  rcases hah : rewriteOptBlock rs.adhoc_index_block bc4 f4 with ⟨AH, bc5, f5⟩
  have hCs := rewriteColumns_spec rs.columns bc fresh
  rw [hc] at hCs
  obtain ⟨c1, c2, c3, c4⟩ := hCs
  have hRDs := rewriteDeltas_spec rs.redo_deltas bc1 f1
  rw [hrd] at hRDs
  obtain ⟨r1, r2, r3, r4⟩ := hRDs
  have hUDs := rewriteDeltas_spec rs.undo_deltas bc2 f2
  rw [hud] at hUDs
  obtain ⟨u1, u2, u3, u4⟩ := hUDs
  have hBLs := rewriteOptBlock_spec rs.bloom_block bc3 f3
  rw [hbl] at hBLs
  obtain ⟨b1, b2, b3, b4⟩ := hBLs
  have hAHs := rewriteOptBlock_spec rs.adhoc_index_block bc4 f4
  rw [hah] at hAHs
  obtain ⟨a1, a2, a3, a4⟩ := hAHs
  simp only at c1 c2 c3 c4 r1 r2 r3 r4 u1 u2 u3 u4 b1 b2 b3 b4 a1 a2 a3 a4
  have hres : rewriteRowSet rs bc fresh =
      ({ rs with columns := C, redo_deltas := RD, undo_deltas := UD,
                 bloom_block := BL, adhoc_index_block := AH }, bc5, f5) := by
    simp [rewriteRowSet, hc, hrd, hud, hbl, hah]
  rw [hres]
  refine ⟨?_, ?_, ?_, ?_⟩
  · simp only [rowSetNumBlocks]; omega
  · simp only [rowSetNumBlocks]; omega
  · have e2 : f2 = fresh +
        (rs.columns.length + rs.redo_deltas.length) := by omega
    have e3 : f3 = fresh +
        (rs.columns.length + rs.redo_deltas.length + rs.undo_deltas.length) := by
      omega
    have e4 : f4 = fresh +
        (rs.columns.length + rs.redo_deltas.length + rs.undo_deltas.length +
          (if rs.bloom_block.isSome then 1 else 0)) := by omega
    have e1 : f1 = fresh + rs.columns.length := c2
    simp only [rowSetBlockRefs, rowSetNumBlocks, c3, r3, u3, b3, a3, e1, e2,
      e3, e4, freshIds_append]
  · simp only [eraseRowSet, c4, r4, u4]
    exact congrArg₂ (fun x y => { rs with
        columns := rs.columns.map eraseColumn,
        redo_deltas := rs.redo_deltas.map eraseDelta,
        undo_deltas := rs.undo_deltas.map eraseDelta,
        bloom_block := x, adhoc_index_block := y })
      (optMap_const_of_isSome_eq BL rs.bloom_block b4)
      (optMap_const_of_isSome_eq AH rs.adhoc_index_block a4)

theorem rewriteRowSets_spec (rss : List RowSetDataPB) :
    ∀ (bc fresh : Nat),
      (rewriteRowSets rss bc fresh).2.1 =
        bc + (rss.map rowSetNumBlocks).sum ∧
      (rewriteRowSets rss bc fresh).2.2 =
        fresh + (rss.map rowSetNumBlocks).sum ∧
      ((rewriteRowSets rss bc fresh).1.map rowSetBlockRefs).flatten =
        freshIds fresh (rss.map rowSetNumBlocks).sum ∧
      (rewriteRowSets rss bc fresh).1.map eraseRowSet =
        rss.map eraseRowSet := by
  induction rss with
  | nil => intro bc fresh; simp [rewriteRowSets, freshIds]
  | cons rs rest ih =>
    intro bc fresh
    rcases hr : rewriteRowSet rs bc fresh with ⟨R, bc1, f1⟩
    have hRs := rewriteRowSet_spec rs bc fresh
    rw [hr] at hRs
    obtain ⟨h1, h2, h3, h4⟩ := hRs
    simp only at h1 h2 h3 h4
    obtain ⟨i1, i2, i3, i4⟩ := ih bc1 f1
    have hres : rewriteRowSets (rs :: rest) bc fresh =
        (R :: (rewriteRowSets rest bc1 f1).1,
         (rewriteRowSets rest bc1 f1).2.1,
         (rewriteRowSets rest bc1 f1).2.2) := by
      simp [rewriteRowSets, hr]
    rw [hres]
    refine ⟨?_, ?_, ?_, ?_⟩
    · simp only [List.map_cons, List.sum_cons, i1]; omega
    · simp only [List.map_cons, List.sum_cons, i2]; omega
    · have e1 : f1 = fresh + rowSetNumBlocks rs := h2
      subst e1
      simp only [List.map_cons, List.flatten_cons, List.sum_cons, h3, i3,
        freshIds_append]
    · simp only [List.map_cons, h4, i4]

theorem sum_map_foldl (g : RowSetDataPB → Nat) (l : List RowSetDataPB) :
    ∀ acc : Nat, l.foldl (fun a rs => a + g rs) acc = acc + (l.map g).sum := by
  induction l with
  | nil => intro acc; simp
  | cons rs rest ih =>
    intro acc
    simp only [List.foldl_cons, List.map_cons, List.sum_cons, ih]
    omega

theorem numBlocksCode_eq_spec (sb : TabletSuperBlockPB) :
    numBlocksCode sb = numBlocksSpec sb := by
  have h : numBlocksCode sb =
      sb.rowsets.foldl (fun a rs => a + rowSetNumBlocks rs) 0 := by
    simp only [numBlocksCode, rowSetNumBlocks, Nat.add_assoc]
  rw [h, sum_map_foldl, Nat.zero_add]
  rfl

theorem numBlocksSpec_eq_sum (sb : TabletSuperBlockPB) :
    numBlocksSpec sb = (sb.rowsets.map rowSetNumBlocks).sum := rfl

/-! ## Lemmas about leader extraction and error unwinding -/

theorem cloneAndPrepend_code (s : Status) (m : String) :
    (s.cloneAndPrepend m).code = s.code := rfl

theorem extractLeaderAux_notFound_iff (lead : Option String)
    (peers : List RaftPeerPB) :
    extractLeaderAux lead peers =
        Except.error (Status.mkNotFound "No leader found in config") ↔
      lead = none ∨ lead = some "" ∨
        ∀ p ∈ peers, some p.permanent_uuid ≠ lead := by
  induction peers with
  | nil => simp [extractLeaderAux]
  | cons p rest ih =>
    cases lead with
    | none => simp [extractLeaderAux]
    | some u =>
      by_cases hu : u = ""
      · subst hu; simp [extractLeaderAux]
      · by_cases hpu : p.permanent_uuid = u
        · simp [extractLeaderAux, hu, hpu]
        · simp only [extractLeaderAux, if_neg hu, if_neg hpu, ih]
          simp [hu, hpu]

theorem extractLeaderAux_ok (lead : Option String) (peers : List RaftPeerPB)
    (p : RaftPeerPB) (h : extractLeaderAux lead peers = Except.ok p) :
    p ∈ peers ∧ some p.permanent_uuid = lead := by
  induction peers with
  | nil => simp [extractLeaderAux] at h
  | cons q rest ih =>
    cases lead with
    | none => simp [extractLeaderAux] at h
    | some u =>
      by_cases hu : u = ""
      · subst hu; simp [extractLeaderAux] at h
      · by_cases hqu : q.permanent_uuid = u
        · simp only [extractLeaderAux, if_neg hu, if_pos hqu] at h
          cases h
          exact ⟨List.mem_cons_self _ _, by rw [hqu]⟩
        · simp only [extractLeaderAux, if_neg hu, if_neg hqu] at h
          obtain ⟨hm, he⟩ := ih h
          exact ⟨List.mem_cons_of_mem _ hm, he⟩

theorem extractLeaderAux_error (lead : Option String)
    (peers : List RaftPeerPB) (s : Status)
    (h : extractLeaderAux lead peers = Except.error s) :
    s = Status.mkNotFound "No leader found in config" := by
  induction peers with
  | nil => simp [extractLeaderAux] at h; exact h.symm
  | cons q rest ih =>
    cases lead with
    | none => simp [extractLeaderAux] at h; exact h.symm
    | some u =>
      by_cases hu : u = ""
      · subst hu; simp [extractLeaderAux] at h; exact h.symm
      · by_cases hqu : q.permanent_uuid = u
        · simp [extractLeaderAux, hu, hqu] at h
        · simp only [extractLeaderAux, if_neg hu, if_neg hqu] at h
          exact ih h

theorem sumLens_eq_chunkData_length (cs : List DataChunkPB) :
    sumLens cs = (chunkData cs).length := by
  induction cs with
  | nil => rfl
  | cons c rest ih => simp [sumLens, chunkData, ih] at *; omega

/-! ## Claim theorems -/

/-- C1: Every chunk accepted by the fetch loop of `DownloadFile` sits at an
offset equal to the sum of the lengths of the previously accepted chunks and
carries a CRC32C equal to the CRC32C of its data; a chunk whose offset
differs from the expected offset is rejected by `VerifyData` with
`InvalidArgument`, and a chunk at the right offset whose computed CRC differs
from its `crc32c` field is rejected with `Corruption`. -/
theorem C1_accepted_chunk_invariant :
    (∀ (fetch : Nat → RpcOutcome) (fuel : Nat) (s : Status) (st : FetchState),
        DownloadFile fetch fuel = some (s, st) →
        goodChunksFrom 0 st.accepted) ∧
    (∀ (off : Nat) (c : DataChunkPB), off ≠ c.offset →
        VerifyData off c = Status.mkInvalidArgument
          "Offset did not match what was asked for"
          (toString off ++ " vs " ++ toString c.offset)) ∧
    (∀ (off : Nat) (c : DataChunkPB), off = c.offset →
        crc32c c.data ≠ c.crc32 →
        (VerifyData off c).code = StatusCode.Corruption) := by
  refine ⟨?_, ?_, ?_⟩
  · intro fetch fuel s st h
    exact (downloadFileAux_inv fuel fetch ⟨0, [], []⟩ s st ⟨trivial, rfl, rfl⟩ h).1
  · intro off c h
    simp [VerifyData, h]
  · intro off c h1 h2
    simp [VerifyData, h1, h2, Status.mkCorruption]

/-- C1 witness: a concrete accepted run satisfies the invariant, a concrete
offset-skewed chunk is rejected with `InvalidArgument`, and a concrete
CRC-skewed chunk is rejected with `Corruption`. -/
theorem C1_witness :
    goodChunksFrom 0 [(⟨0, [1, 2], crc32c [1, 2], 2⟩ : DataChunkPB)] ∧
    VerifyData 1 ⟨0, [1, 2], crc32c [1, 2], 2⟩ =
      Status.mkInvalidArgument "Offset did not match what was asked for"
        (toString (1 : Nat) ++ " vs " ++ toString (0 : Nat)) ∧
    (VerifyData 0 ⟨0, [1, 2], 0, 2⟩).code = StatusCode.Corruption :=
  ⟨C1_accepted_chunk_invariant.1
      (listFetch [⟨0, [1, 2], crc32c [1, 2], 2⟩]) 1 Status.OK
      ⟨2, [1, 2], [⟨0, [1, 2], crc32c [1, 2], 2⟩]⟩ rfl,
   C1_accepted_chunk_invariant.2.1 1 ⟨0, [1, 2], crc32c [1, 2], 2⟩ (by decide),
   C1_accepted_chunk_invariant.2.2 0 ⟨0, [1, 2], 0, 2⟩ rfl (by decide)⟩

/-- C2: when one logical item of bytes `B` is served as a non-empty list of
chunks of positive sizes whose data concatenates to `B`, with correct
offsets, matching CRC32Cs and advertised total `length B` on each chunk,
`DownloadFile` returns OK and the sink receives exactly `B`, in order. -/
theorem C2_single_item_roundtrip (B : List Nat) (cs : List DataChunkPB)
    (hne : cs ≠ []) (hserve : serveChunks B.length 0 cs)
    (hdata : chunkData cs = B) :
    DownloadFile (listFetch cs) cs.length =
      some (Status.OK, ⟨B.length, B, cs⟩) := by
  have hsum : sumLens cs = B.length := by
    rw [sumLens_eq_chunkData_length, hdata]
  have hserve' : serveChunks ((0 : Nat) + sumLens cs) 0 cs := by
    rw [Nat.zero_add, hsum]; exact hserve
  have h := downloadFileAux_serves cs ⟨0, [], []⟩ hne hserve'
  rw [DownloadFile, h]
  simp [hsum, hdata]

/-- C2 witness: the five bytes `[1,2,3,4,5]` served in chunks of sizes 2 and
3 are reassembled bit for bit. -/
theorem C2_witness :
    DownloadFile
        (listFetch [⟨0, [1, 2], crc32c [1, 2], 5⟩,
                    ⟨2, [3, 4, 5], crc32c [3, 4, 5], 5⟩]) 2 =
      some (Status.OK,
        ⟨5, [1, 2, 3, 4, 5],
         [⟨0, [1, 2], crc32c [1, 2], 5⟩, ⟨2, [3, 4, 5], crc32c [3, 4, 5], 5⟩]⟩) :=
  C2_single_item_roundtrip [1, 2, 3, 4, 5]
    [⟨0, [1, 2], crc32c [1, 2], 5⟩, ⟨2, [3, 4, 5], crc32c [3, 4, 5], 5⟩]
    (by decide)
    ⟨rfl, rfl, rfl, by decide, rfl, rfl, rfl, by decide, trivial⟩
    rfl

/-- C10: chunk verification precedes the sink append — a chunk rejected by
`VerifyData` leaves the loop's state (in particular the sink) unchanged, and
whenever `DownloadFile` returns (success or failure), the sink is exactly the
concatenation of the data of the accepted chunks. -/
theorem C10_verify_precedes_append :
    (∀ (fetch : Nat → RpcOutcome) (st : FetchState) (c : DataChunkPB) (n : Nat),
        fetch 0 = RpcOutcome.reply c →
        (VerifyData st.offset c).code ≠ StatusCode.Ok →
        downloadFileAux (n + 1) fetch st =
          some ((VerifyData st.offset c).cloneAndPrepend
                  "Error validating data item", st)) ∧
    (∀ (fetch : Nat → RpcOutcome) (fuel : Nat) (s : Status) (st : FetchState),
        DownloadFile fetch fuel = some (s, st) →
        st.sink = chunkData st.accepted) := by
  constructor
  · intro fetch st c n hf hv
    simp [downloadFileAux, hf, hv]
  · intro fetch fuel s st h
    exact (downloadFileAux_inv fuel fetch ⟨0, [], []⟩ s st ⟨trivial, rfl, rfl⟩ h).2.2

/-- C10 witness: a concrete offset-skewed chunk is rejected with the state
untouched, and a concrete failed run's sink equals the accepted data. -/
theorem C10_witness :
    downloadFileAux 1 (listFetch [⟨3, [9], crc32c [9], 4⟩]) ⟨0, [], []⟩ =
      some ((VerifyData 0 ⟨3, [9], crc32c [9], 4⟩).cloneAndPrepend
              "Error validating data item", ⟨0, [], []⟩) ∧
    ([6] : List Nat) =
      chunkData [(⟨0, [6], crc32c [6], 3⟩ : DataChunkPB)] :=
  ⟨C10_verify_precedes_append.1 (listFetch [⟨3, [9], crc32c [9], 4⟩])
      ⟨0, [], []⟩ ⟨3, [9], crc32c [9], 4⟩ 0 rfl (by decide),
   C10_verify_precedes_append.2 (listFetch [⟨0, [6], crc32c [6], 3⟩]) 2
      (Status.mkTimedOut "FetchData RPC timed out" |>.cloneAndPrepend
        "Unable to fetch data from remote")
      ⟨1, [6], [⟨0, [6], crc32c [6], 3⟩]⟩ rfl⟩

/-- The overlong chunk for C8: correct offset and CRC, but its 10 bytes of
data run past the advertised total length of 5. -/
def overChunk : DataChunkPB :=
  ⟨0, [7, 7, 7, 7, 7, 7, 7, 7, 7, 7], crc32c [7, 7, 7, 7, 7, 7, 7, 7, 7, 7], 5⟩

/-- C8 counterexample: the fetcher accepts (appends to the sink) a chunk
whose data extends past the advertised `total_data_length` — `overChunk`
with `offset + length = 10 > total_data_length = 5` passes verification and
ends up in the accepted list of a run, refuting the claimed invariant
`O + len(chunk.data) ≤ chunk.total_data_length` for accepted chunks. -/
theorem C8_counterexample :
    (DownloadFile (listFetch [overChunk]) 2).map (fun r => r.2.accepted) =
      some [overChunk] ∧
    (VerifyData 0 overChunk).code = StatusCode.Ok ∧
    ¬ (overChunk.offset + overChunk.data.length ≤ overChunk.total_data_length) := by
  refine ⟨rfl, rfl, by decide⟩

/-- C8 amended: acceptance checks only the offset and the CRC — a chunk is
accepted exactly when its offset equals the expected offset and the CRC32C
of its data equals its `crc32c` field; the bound
`O + len(data) ≤ total_data_length` is not enforced, and an accepted chunk
that does not land exactly on the total is appended to the sink and the loop
simply continues. -/
theorem C8_amended_acceptance :
    (∀ (off : Nat) (c : DataChunkPB),
        (VerifyData off c).code = StatusCode.Ok ↔
          c.offset = off ∧ crc32c c.data = c.crc32) ∧
    (∀ (fetch : Nat → RpcOutcome) (st : FetchState) (c : DataChunkPB) (n : Nat),
        fetch 0 = RpcOutcome.reply c → c.offset = st.offset →
        crc32c c.data = c.crc32 →
        st.offset + c.data.length ≠ c.total_data_length →
        downloadFileAux (n + 1) fetch st =
          downloadFileAux n (fun m => fetch (m + 1))
            ⟨st.offset + c.data.length, st.sink ++ c.data,
             st.accepted ++ [c]⟩) := by
  constructor
  · exact verifyData_ok_iff
  · intro fetch st c n hf hoff hcrc hd
    have hv : (VerifyData st.offset c).code = StatusCode.Ok :=
      (verifyData_ok_iff st.offset c).mpr ⟨hoff, hcrc⟩
    simp [downloadFileAux, hf, hv, hd]

/-- C8 witness: the amended acceptance criterion evaluated on the overlong
chunk — it is accepted and the loop goes on past the advertised total. -/
theorem C8_witness :
    ((VerifyData 0 overChunk).code = StatusCode.Ok ↔
      overChunk.offset = 0 ∧ crc32c overChunk.data = overChunk.crc32) ∧
    downloadFileAux 2 (listFetch [overChunk]) ⟨0, [], []⟩ =
      downloadFileAux 1 (fun m => listFetch [overChunk] (m + 1))
        ⟨0 + overChunk.data.length, [] ++ overChunk.data, [] ++ [overChunk]⟩ :=
  ⟨C8_amended_acceptance.1 0 overChunk,
   C8_amended_acceptance.2 (listFetch [overChunk]) ⟨0, [], []⟩ overChunk 1
     rfl rfl rfl (by decide)⟩

/-- A remote that forever replies the same valid zero-length chunk at
offset 0 with an advertised total of 5. -/
def constZeroFetch : Nat → RpcOutcome :=
  fun _ => RpcOutcome.reply ⟨0, [], crc32c [], 5⟩

/-- The fetch loop never returns, whatever fuel it is given. -/
def neverReturns (fetch : Nat → RpcOutcome) : Prop :=
  ∀ fuel, DownloadFile fetch fuel = none

/-- C9 counterexample: when the remote forever replies valid zero-length
chunks at a non-terminal offset, `DownloadFile` does NOT fail with
`TimedOut` — its loop never returns at all (for every fuel bound it is still
running), because the per-RPC deadline cannot fire while replies keep
arriving and the loop contains no progress check. -/
theorem C9_counterexample : neverReturns constZeroFetch := by
  intro fuel
  show downloadFileAux fuel constZeroFetch ⟨0, [], []⟩ = none
  apply zeroChunk_loop_forever
  intro n
  exact ⟨⟨0, [], crc32c [], 5⟩, rfl, rfl, rfl, rfl, by decide⟩

/-- C9 amended: a valid zero-length chunk at a non-terminal offset is
accepted but makes no progress, and if the remote forever replies such
chunks the loop never terminates; `DownloadFile` fails with `TimedOut` only
when a `FetchData` RPC itself fails with `TimedOut` (the remote stops
replying within the per-RPC idle timeout), in which case the loop propagates
that failure. -/
theorem C9_amended_no_progress :
    (∀ (fetch : Nat → RpcOutcome) (st : FetchState) (s : Status) (n : Nat),
        fetch 0 = RpcOutcome.fail s → s.code = StatusCode.TimedOut →
        downloadFileAux (n + 1) fetch st =
          some (s.cloneAndPrepend "Unable to fetch data from remote", st) ∧
        (s.cloneAndPrepend "Unable to fetch data from remote").code =
          StatusCode.TimedOut) ∧
    (∀ (fetch : Nat → RpcOutcome) (st : FetchState),
        alwaysZeroChunk fetch st.offset →
        ∀ fuel, downloadFileAux fuel fetch st = none) := by
  constructor
  · intro fetch st s n hf hs
    constructor
    · simp [downloadFileAux, hf]
    · rw [cloneAndPrepend_code, hs]
  · intro fetch st hz fuel
    exact zeroChunk_loop_forever fuel fetch st hz

/-- C9 witness: a concrete timed-out RPC is propagated, and the concrete
constant zero-chunk stream keeps the loop running at fuel 3. -/
theorem C9_witness :
    (downloadFileAux 1 (fun _ => RpcOutcome.fail (Status.mkTimedOut "t"))
        ⟨0, [], []⟩ =
      some ((Status.mkTimedOut "t").cloneAndPrepend
              "Unable to fetch data from remote", ⟨0, [], []⟩) ∧
      ((Status.mkTimedOut "t").cloneAndPrepend
          "Unable to fetch data from remote").code = StatusCode.TimedOut) ∧
    downloadFileAux 3 constZeroFetch ⟨0, [], []⟩ = none :=
  ⟨C9_amended_no_progress.1 (fun _ => RpcOutcome.fail (Status.mkTimedOut "t"))
      ⟨0, [], []⟩ (Status.mkTimedOut "t") 0 rfl rfl,
   C9_amended_no_progress.2 constZeroFetch ⟨0, [], []⟩
      (fun _ => ⟨⟨0, [], crc32c [], 5⟩, rfl, rfl, rfl, rfl, by decide⟩) 3⟩

/-- C3: if any step preceding the superblock swap fails (beginning the
session, downloading WALs, downloading blocks, or writing consensus
metadata), `RunRemoteBootstrap` returns that first failing step's error and
the `replaceSuperBlock` step is never invoked, so the pre-existing tablet
metadata is unchanged and the new superblock is discarded. -/
theorem C3_early_failure_no_swap (o : StepOutcomes)
    (h : ¬ o.beginSession.ok ∨ ¬ o.downloadWALs.ok ∨ ¬ o.downloadBlocks.ok ∨
      ¬ o.writeConsensusMetadata.ok) :
    (RunRemoteBootstrap o).1 = firstFailureBeforeSwap o ∧
    ¬ (RunRemoteBootstrap o).1.ok ∧
    BootstrapStep.replaceSuperBlock ∉ (RunRemoteBootstrap o).2 := by
  by_cases h1 : o.beginSession.ok
  · by_cases h2 : o.downloadWALs.ok
    · by_cases h3 : o.downloadBlocks.ok
      · by_cases h4 : o.writeConsensusMetadata.ok
        · rcases h with h | h | h | h <;> contradiction
        · refine ⟨?_, ?_, ?_⟩
          · simp [RunRemoteBootstrap, firstFailureBeforeSwap, h1, h2, h3, h4]
          · simp only [RunRemoteBootstrap, h1, h2, h3, h4]
            simp [h4]
          · simp only [RunRemoteBootstrap, h1, h2, h3, h4]
            simp
      · refine ⟨?_, ?_, ?_⟩
        · simp [RunRemoteBootstrap, firstFailureBeforeSwap, h1, h2, h3]
        · simp only [RunRemoteBootstrap, h1, h2, h3]
          simp [h3]
        · simp only [RunRemoteBootstrap, h1, h2, h3]
          simp
    · refine ⟨?_, ?_, ?_⟩
      · simp [RunRemoteBootstrap, firstFailureBeforeSwap, h1, h2]
      · simp only [RunRemoteBootstrap, h1, h2]
        simp [h2]
      · simp only [RunRemoteBootstrap, h1, h2]
        simp
  · refine ⟨?_, ?_, ?_⟩
    · simp [RunRemoteBootstrap, firstFailureBeforeSwap, h1]
    · simp only [RunRemoteBootstrap, h1]
      simp [h1]
    · simp only [RunRemoteBootstrap, h1]
      simp

/-- C3 witness: a failing `BeginRemoteBootstrapSession` aborts the run
before any superblock replacement. -/
theorem C3_witness :
    (RunRemoteBootstrap ⟨Status.mkTimedOut "boom", Status.OK, Status.OK,
        Status.OK, Status.OK, Status.OK⟩).1 =
      firstFailureBeforeSwap ⟨Status.mkTimedOut "boom", Status.OK, Status.OK,
        Status.OK, Status.OK, Status.OK⟩ ∧
    ¬ (RunRemoteBootstrap ⟨Status.mkTimedOut "boom", Status.OK, Status.OK,
        Status.OK, Status.OK, Status.OK⟩).1.ok ∧
    BootstrapStep.replaceSuperBlock ∉
      (RunRemoteBootstrap ⟨Status.mkTimedOut "boom", Status.OK, Status.OK,
        Status.OK, Status.OK, Status.OK⟩).2 :=
  C3_early_failure_no_swap
    ⟨Status.mkTimedOut "boom", Status.OK, Status.OK, Status.OK, Status.OK,
     Status.OK⟩ (Or.inl (by decide))

/-- C4: on successful completion, `DownloadBlocks` produces a superblock
that is the deep copy of the remote one with every block reference — in
traversal order: rowsets in order, and per rowset columns, redo deltas,
undo deltas, bloom block, ad-hoc index block — overwritten with the next
freshly allocated local block id, with `orphaned_blocks` cleared and every
non-block field preserved; the final block count, and the `num_blocks`
total used in progress messages, both equal the spec's sum over rowsets of
`columns + redo_deltas + undo_deltas + has_bloom + has_adhoc_index`. -/
theorem C4_download_blocks_rewrite (sb : TabletSuperBlockPB) (n0 : Nat) :
    (DownloadBlocks sb n0).1.orphaned_blocks = [] ∧
    blockRefs (DownloadBlocks sb n0).1 = freshIds n0 (numBlocksSpec sb) ∧
    eraseBlockRefs (DownloadBlocks sb n0).1 =
      eraseBlockRefs { sb with orphaned_blocks := [] } ∧
    (DownloadBlocks sb n0).2 = numBlocksSpec sb ∧
    numBlocksCode sb = numBlocksSpec sb := by
  obtain ⟨h1, h2, h3, h4⟩ := rewriteRowSets_spec sb.rowsets 0 n0
  refine ⟨rfl, ?_, ?_, ?_, numBlocksCode_eq_spec sb⟩
  · show ((rewriteRowSets sb.rowsets 0 n0).1.map rowSetBlockRefs).flatten = _
    rw [h3, numBlocksSpec_eq_sum]
  · show ({ sb with
        rowsets := (rewriteRowSets sb.rowsets 0 n0).1.map eraseRowSet,
        orphaned_blocks := [] } : TabletSuperBlockPB) = _
    rw [h4]
    rfl
  · show (rewriteRowSets sb.rowsets 0 n0).2.1 = _
    rw [h1, numBlocksSpec_eq_sum, Nat.zero_add]

/-- C5: if `BeginRemoteBootstrapSession` receives a response whose
superblock's remote-bootstrap state is not `REMOTE_BOOTSTRAP_DONE`, it
returns `IllegalState` and the session phase stays `kNoSession`; the session
id, idle timeout, superblock, WAL sequence numbers and committed consensus
state are not stored, and the session-started guard of the download and
end-session steps still fails. -/
theorem C5_begin_session_illegal_state
    (cl : RemoteBootstrapClientState) (t : String) (cs : ConsensusStatePB)
    (resp : BeginRemoteBootstrapSessionResponsePB) (leader : RaftPeerPB)
    (addr : HostPortPB)
    (h0 : cl.state = SessionState.kNoSession)
    (hl : ExtractLeaderFromConfig cs = Except.ok leader)
    (ha : leader.last_known_addr = some addr)
    (hs : resp.superblock.remote_bootstrap_state ≠
      RemoteBootstrapStatePB.REMOTE_BOOTSTRAP_DONE) :
    (BeginRemoteBootstrapSession cl t cs (Except.ok resp)).1.code =
      StatusCode.IllegalState ∧
    (BeginRemoteBootstrapSession cl t cs (Except.ok resp)).2.state =
      SessionState.kNoSession ∧
    checkSessionStarted
      (BeginRemoteBootstrapSession cl t cs (Except.ok resp)).2 = false ∧
    (BeginRemoteBootstrapSession cl t cs (Except.ok resp)).2.session_id =
      cl.session_id ∧
    (BeginRemoteBootstrapSession cl t cs
        (Except.ok resp)).2.session_idle_timeout_millis =
      cl.session_idle_timeout_millis ∧
    (BeginRemoteBootstrapSession cl t cs (Except.ok resp)).2.superblock =
      cl.superblock ∧
    (BeginRemoteBootstrapSession cl t cs (Except.ok resp)).2.wal_seqnos =
      cl.wal_seqnos ∧
    (BeginRemoteBootstrapSession cl t cs (Except.ok resp)).2.committed_cstate =
      cl.committed_cstate := by
  have hres : BeginRemoteBootstrapSession cl t cs (Except.ok resp) =
      (Status.mkIllegalState
         "Leader of config is currently remotely bootstrapping itself!"
         "superblock", { cl with tablet_id := t }) := by
    simp [BeginRemoteBootstrapSession, hl, ha, hs]
  rw [hres]
  refine ⟨rfl, h0, ?_, rfl, rfl, rfl, rfl, rfl⟩
  simp [checkSessionStarted, h0]

def c5leader : RaftPeerPB := ⟨"uuid-l", some ⟨"host", 7050⟩⟩

def c5cstate : ConsensusStatePB := ⟨some "uuid-l", ⟨[c5leader]⟩, 3⟩

def c5client : RemoteBootstrapClientState :=
  ⟨SessionState.kNoSession, "", "", 0, none, [], none⟩

def c5resp : BeginRemoteBootstrapSessionResponsePB :=
  ⟨"sess-1", 1000,
   ⟨[], [], RemoteBootstrapStatePB.REMOTE_BOOTSTRAP_COPYING, 0⟩, [4, 5],
   c5cstate⟩

/-- C5 witness: a concrete mid-bootstrap leader response is refused with
`IllegalState` and the client state keeps none of the session fields. -/
theorem C5_witness :
    (BeginRemoteBootstrapSession c5client "tablet-1" c5cstate
        (Except.ok c5resp)).1.code = StatusCode.IllegalState ∧
    (BeginRemoteBootstrapSession c5client "tablet-1" c5cstate
        (Except.ok c5resp)).2.state = SessionState.kNoSession ∧
    checkSessionStarted
      (BeginRemoteBootstrapSession c5client "tablet-1" c5cstate
        (Except.ok c5resp)).2 = false ∧
    (BeginRemoteBootstrapSession c5client "tablet-1" c5cstate
        (Except.ok c5resp)).2.session_id = c5client.session_id ∧
    (BeginRemoteBootstrapSession c5client "tablet-1" c5cstate
        (Except.ok c5resp)).2.session_idle_timeout_millis =
      c5client.session_idle_timeout_millis ∧
    (BeginRemoteBootstrapSession c5client "tablet-1" c5cstate
        (Except.ok c5resp)).2.superblock = c5client.superblock ∧
    (BeginRemoteBootstrapSession c5client "tablet-1" c5cstate
        (Except.ok c5resp)).2.wal_seqnos = c5client.wal_seqnos ∧
    (BeginRemoteBootstrapSession c5client "tablet-1" c5cstate
        (Except.ok c5resp)).2.committed_cstate = c5client.committed_cstate :=
  C5_begin_session_illegal_state c5client "tablet-1" c5cstate c5resp
    c5leader ⟨"host", 7050⟩ rfl rfl rfl (by decide)

/-- C6: `UnwindRemoteError` returns a non-`RemoteError` status unchanged;
for a `RemoteError` whose error response carries the remote-bootstrap error
extension it returns the original status with the decoded remote status
appended, whose message is prefixed
"Received error code <Code> from remote service"; and when the extension is
absent the appended decode result is the `InvalidArgument`
"Unable to decode remote bootstrap RPC error message". -/
theorem C6_unwind_remote_error (s : Status) (e : ErrorStatusPB) :
    (s.code ≠ StatusCode.RemoteError → UnwindRemoteError s e = s) ∧
    (∀ err, s.code = StatusCode.RemoteError →
      e.remote_bootstrap_error_ext = some err →
      err.status.code ≠ StatusCode.Ok →
      UnwindRemoteError s e =
        ⟨StatusCode.RemoteError,
         s.msg ++ ": " ++
           (err.status.code.codeString ++ ": " ++
             ("Received error code " ++ err.code_name ++
               " from remote service" ++ ": " ++ err.status.message))⟩) ∧
    (s.code = StatusCode.RemoteError →
      e.remote_bootstrap_error_ext = none →
      UnwindRemoteError s e =
        ⟨StatusCode.RemoteError,
         s.msg ++ ": " ++
           ("InvalidArgument" ++ ": " ++
             ("Unable to decode remote bootstrap RPC error message" ++ ": " ++
               e.short_debug))⟩) := by
  refine ⟨?_, ?_, ?_⟩
  · intro h
    simp [UnwindRemoteError, h]
  · intro err hs hext hok
    have h1 : UnwindRemoteError s e =
        s.cloneAndAppend (ExtractRemoteError e).toString := by
      simp [UnwindRemoteError, hs]
    have h2 : ExtractRemoteError e =
        ⟨err.status.code,
         "Received error code " ++ err.code_name ++ " from remote service" ++
           ": " ++ err.status.message⟩ := by
      simp [ExtractRemoteError, hext, statusFromPB, Status.cloneAndPrepend]
    have h3 : (ExtractRemoteError e).toString =
        err.status.code.codeString ++ ": " ++
          ("Received error code " ++ err.code_name ++ " from remote service" ++
            ": " ++ err.status.message) := by
      rw [h2, Status.toString, if_neg hok]
    rw [h1, h3]
    simp only [Status.cloneAndAppend]
    rw [hs]
  · intro hs hext
    have h1 : UnwindRemoteError s e =
        s.cloneAndAppend (ExtractRemoteError e).toString := by
      simp [UnwindRemoteError, hs]
    have h2 : ExtractRemoteError e =
        ⟨StatusCode.InvalidArgument,
         "Unable to decode remote bootstrap RPC error message" ++ ": " ++
           e.short_debug⟩ := by
      simp [ExtractRemoteError, hext, Status.mkInvalidArgument]
    have h3 : (ExtractRemoteError e).toString =
        "InvalidArgument" ++ ": " ++
          ("Unable to decode remote bootstrap RPC error message" ++ ": " ++
            e.short_debug) := by
      rw [h2]
      rfl
    rw [h1, h3]
    simp only [Status.cloneAndAppend]
    rw [hs]

/-- C6 witness: the three unwinding behaviours at concrete statuses — a
`NotFound` passes through, a `RemoteError` with the `UNKNOWN_TABLET`
extension gains the decoded remote status, and a `RemoteError` without the
extension gains the `InvalidArgument` decode failure. -/
theorem C6_witness :
    UnwindRemoteError (Status.mkNotFound "x") ⟨none, "dbg"⟩ =
      Status.mkNotFound "x" ∧
    UnwindRemoteError ⟨StatusCode.RemoteError, "rpc failed"⟩
        ⟨some ⟨"UNKNOWN_TABLET", ⟨StatusCode.NotFound, "no such tablet"⟩⟩,
         "dbg"⟩ =
      ⟨StatusCode.RemoteError,
       "rpc failed" ++ ": " ++ "NotFound" ++ ": " ++
         "Received error code " ++ "UNKNOWN_TABLET" ++
         " from remote service" ++ ": " ++ "no such tablet"⟩ ∧
    UnwindRemoteError ⟨StatusCode.RemoteError, "rpc failed"⟩ ⟨none, "dbg"⟩ =
      ⟨StatusCode.RemoteError,
       "rpc failed" ++ ": " ++ "InvalidArgument" ++ ": " ++
         "Unable to decode remote bootstrap RPC error message" ++ ": " ++
         "dbg"⟩ :=
  ⟨(C6_unwind_remote_error (Status.mkNotFound "x") ⟨none, "dbg"⟩).1
     (by decide),
   (C6_unwind_remote_error ⟨StatusCode.RemoteError, "rpc failed"⟩
       ⟨some ⟨"UNKNOWN_TABLET", ⟨StatusCode.NotFound, "no such tablet"⟩⟩,
        "dbg"⟩).2.1
     ⟨"UNKNOWN_TABLET", ⟨StatusCode.NotFound, "no such tablet"⟩⟩ rfl rfl
     (by decide),
   (C6_unwind_remote_error ⟨StatusCode.RemoteError, "rpc failed"⟩
       ⟨none, "dbg"⟩).2.2 rfl rfl⟩

/-- C7: `ExtractLeaderFromConfig` returns the `NotFound`
("No leader found in config") error exactly when the snapshot's leader uuid
is absent or empty or no peer's permanent uuid equals it; when it returns a
peer, that peer is in the config and matches the leader uuid; in
`BeginRemoteBootstrapSession` a matching peer without a last-known address
yields `InvalidArgument`, and a failed extraction yields `NotFound` — both
decided without consulting the RPC outcome (the result is the same whatever
the network would have answered). -/
theorem C7_leader_location (cs : ConsensusStatePB) :
    (ExtractLeaderFromConfig cs =
        Except.error (Status.mkNotFound "No leader found in config") ↔
      cs.leader_uuid = none ∨ cs.leader_uuid = some "" ∨
        ∀ p ∈ cs.config.peers, some p.permanent_uuid ≠ cs.leader_uuid) ∧
    (∀ p, ExtractLeaderFromConfig cs = Except.ok p →
      p ∈ cs.config.peers ∧ some p.permanent_uuid = cs.leader_uuid) ∧
    (∀ (cl : RemoteBootstrapClientState) (t : String) (p : RaftPeerPB)
        (r r' : Except Status BeginRemoteBootstrapSessionResponsePB),
      ExtractLeaderFromConfig cs = Except.ok p → p.last_known_addr = none →
      (BeginRemoteBootstrapSession cl t cs r).1.code =
        StatusCode.InvalidArgument ∧
      BeginRemoteBootstrapSession cl t cs r =
        BeginRemoteBootstrapSession cl t cs r') ∧
    (∀ (cl : RemoteBootstrapClientState) (t : String) (s : Status)
        (r r' : Except Status BeginRemoteBootstrapSessionResponsePB),
      ExtractLeaderFromConfig cs = Except.error s →
      (BeginRemoteBootstrapSession cl t cs r).1.code = StatusCode.NotFound ∧
      BeginRemoteBootstrapSession cl t cs r =
        BeginRemoteBootstrapSession cl t cs r') := by
  refine ⟨extractLeaderAux_notFound_iff cs.leader_uuid cs.config.peers,
          fun p h => extractLeaderAux_ok cs.leader_uuid cs.config.peers p h,
          ?_, ?_⟩
  · intro cl t p r r' hl ha
    constructor
    · simp [BeginRemoteBootstrapSession, hl, ha, Status.mkInvalidArgument]
    · simp [BeginRemoteBootstrapSession, hl, ha]
  · intro cl t s r r' hl
    have hns : s = Status.mkNotFound "No leader found in config" :=
      extractLeaderAux_error cs.leader_uuid cs.config.peers s hl
    constructor
    · simp [BeginRemoteBootstrapSession, hl, hns, Status.cloneAndPrepend,
        Status.mkNotFound]
    · simp [BeginRemoteBootstrapSession, hl]

def c7clientState : RemoteBootstrapClientState :=
  ⟨SessionState.kNoSession, "", "", 0, none, [], none⟩

def c7peerNoAddr : RaftPeerPB := ⟨"uuid-x", none⟩

def c7csEmptyLeader : ConsensusStatePB := ⟨some "", ⟨[⟨"uuid-a", none⟩]⟩, 1⟩

def c7csNoAddr : ConsensusStatePB := ⟨some "uuid-x", ⟨[c7peerNoAddr]⟩, 1⟩

def c7resp : BeginRemoteBootstrapSessionResponsePB :=
  ⟨"sess-7", 1000,
   ⟨[], [], RemoteBootstrapStatePB.REMOTE_BOOTSTRAP_DONE, 0⟩, [],
   ⟨some "uuid-x", ⟨[c7peerNoAddr]⟩, 1⟩⟩

/-- C7 witness: with `leader_uuid = ""` extraction fails `NotFound` and the
begin call fails `NotFound` identically for two different would-be RPC
outcomes; with a matching peer lacking an address the begin call fails
`InvalidArgument`, again independently of the RPC outcome. -/
theorem C7_witness :
    ExtractLeaderFromConfig c7csEmptyLeader =
      Except.error (Status.mkNotFound "No leader found in config") ∧
    (c7peerNoAddr ∈ c7csNoAddr.config.peers ∧
      some c7peerNoAddr.permanent_uuid = c7csNoAddr.leader_uuid) ∧
    ((BeginRemoteBootstrapSession c7clientState "t" c7csNoAddr
        (Except.error (Status.mkTimedOut "down"))).1.code =
        StatusCode.InvalidArgument ∧
      BeginRemoteBootstrapSession c7clientState "t" c7csNoAddr
          (Except.error (Status.mkTimedOut "down")) =
        BeginRemoteBootstrapSession c7clientState "t" c7csNoAddr
          (Except.ok c7resp)) ∧
    ((BeginRemoteBootstrapSession c7clientState "t" c7csEmptyLeader
        (Except.error (Status.mkTimedOut "down"))).1.code =
        StatusCode.NotFound ∧
      BeginRemoteBootstrapSession c7clientState "t" c7csEmptyLeader
          (Except.error (Status.mkTimedOut "down")) =
        BeginRemoteBootstrapSession c7clientState "t" c7csEmptyLeader
          (Except.ok c7resp)) :=
  ⟨(C7_leader_location c7csEmptyLeader).1.mpr (Or.inr (Or.inl rfl)),
   (C7_leader_location c7csNoAddr).2.1 c7peerNoAddr rfl,
   (C7_leader_location c7csNoAddr).2.2.1 c7clientState "t" c7peerNoAddr
     (Except.error (Status.mkTimedOut "down")) (Except.ok c7resp) rfl rfl,
   (C7_leader_location c7csEmptyLeader).2.2.2 c7clientState "t"
     (Status.mkNotFound "No leader found in config")
     (Except.error (Status.mkTimedOut "down")) (Except.ok c7resp) rfl⟩
